import Mathlib

/-!
Shallow embedding of the conversation/request orchestration core of the
`cli_llm.rs` chat client (two variants: `src/main.rs`, the CLI loop, and
`src/gui.rs`, the egui interactive surface).

External effects (the HTTP exchange, the JSON decode, wall-clock time) are
supplied by the environment as explicit parameters: an `Outcome` value carries
the transport result, the HTTP status, the body-read result and the decode
result exactly as the Rust code branches on them; `Instant::now()` is modelled
as a `Nat` tick-time argument.  Everything else is a direct translation of the
Rust data structures and control flow.
-/

/-- `ChatMessage` from the response body (declared identically in
`src/main.rs` and `src/gui.rs`): `{ role: String, content: String }`. -/
structure ChatMessage where
  role : String
  content : String
deriving DecidableEq

/-- `ChatChoice` from the response body: optional `index`, a `message`,
optional `finish_reason` (identical in both files). -/
structure ChatChoice where
  index : Option Nat
  message : ChatMessage
  finish_reason : Option String
deriving DecidableEq

/-- `OpenRouterChatResponse`: the decoded success-response body
(identical in both files). -/
structure OpenRouterChatResponse where
  id : String
  object : String
  created : Nat
  choices : List ChatChoice
deriving DecidableEq

/-- `reqwest::StatusCode::is_success()`: true exactly for statuses 200..=299. -/
def statusIsSuccess (status : Nat) : Bool :=
  decide (200 ≤ status ∧ status ≤ 299)

/-- The role sequence `user, assistant, user, assistant, ...` of length `2 * n`,
used to state the strict-alternation property. -/
def altUA : Nat → List String
  | 0 => []
  | n + 1 => "user" :: "assistant" :: altUA n

theorem altUA_length (n : Nat) : (altUA n).length = 2 * n := by
  induction n with
  | zero => rfl
  | succ n ih => simp [altUA, ih]; ring

/-- A concrete decoded success-response body with a single choice. -/
def sampleResponse (reply : String) : OpenRouterChatResponse :=
  { id := "gen-1", object := "chat.completion", created := 1,
    choices := [{ index := some 0,
                  message := { role := "assistant", content := reply },
                  finish_reason := some "stop" }] }

/-- A concrete decoded success-response body with an empty `choices` list. -/
def emptyChoicesResponse : OpenRouterChatResponse :=
  { id := "gen-2", object := "chat.completion", created := 2, choices := [] }

namespace Cli

/-- `ChatMessageRequest` in `src/main.rs`: a conversation entry
`{ role: String, content: String }` (no timestamp in the CLI variant). -/
structure ChatMessageRequest where
  role : String
  content : String
deriving DecidableEq

/-- `OpenRouterChatRequest` in `src/main.rs`: the outbound payload
`{ model, messages }`. -/
structure OpenRouterChatRequest where
  model : String
  messages : List ChatMessageRequest
deriving DecidableEq

/-- The environment-supplied result of one HTTP exchange in the CLI loop:
either the transport layer failed (`client.post(..).send().await` returned
`Err`), or a response arrived with a `status`, a body-read result
(`resp.text().await`) and, for the text that was read, the `serde_json`
decode result (`None` models a parse error). -/
inductive Outcome where
  | sendErr (e : String)
  | resp (status : Nat) (textRes : Except String String)
      (decoded : Option OpenRouterChatResponse)

/-- One iteration of the `loop` body in `src/main.rs` after a non-empty,
non-quit `user_input` has been read: push the user message, perform the
exchange, and either continue with the updated conversation (`Except.ok`)
or propagate an error out of `main` via `?` (`Except.error`). -/
def iteration (conversation : List ChatMessageRequest) (user_input : String)
    (o : Outcome) : Except String (List ChatMessageRequest) :=
  let conversation := conversation ++ [{ role := "user", content := user_input }]
  match o with
  | .sendErr e => .error e
  | .resp status textRes decoded =>
    if !(statusIsSuccess status) then
      match textRes with
      | .error e => .error e
      | .ok _error_text => .ok conversation
    else
      match textRes with
      | .error e => .error e
      | .ok _response_text =>
        match decoded with
        | none => .ok conversation
        | some chat_response =>
          match chat_response.choices.head? with
          | some choice =>
            .ok (conversation ++
              [{ role := "assistant", content := choice.message.content }])
          | none => .ok conversation

/-- Run the CLI loop over a list of submissions, each paired with the
environment outcome of its exchange; stops with `Except.error` when an
iteration propagates a fault. -/
def run (conversation : List ChatMessageRequest) :
    List (String × Outcome) → Except String (List ChatMessageRequest)
  | [] => .ok conversation
  | (u, o) :: rest =>
    match iteration conversation u o with
    | .error e => .error e
    | .ok conversation' => run conversation' rest

/-- An outcome that counts as a successful dispatch: the transport succeeded,
the status is a success, the body was read and decoded, and the decoded
response has at least one choice. -/
def IsSuccessAnswer (o : Outcome) : Prop :=
  ∃ status text chat_response,
    o = .resp status (.ok text) (some chat_response) ∧
    statusIsSuccess status = true ∧ chat_response.choices ≠ []

/-- A concrete fully-successful CLI exchange outcome. -/
def successAnswer (reply : String) : Outcome :=
  .resp 200 (.ok "raw body") (some (sampleResponse reply))

end Cli

namespace Gui

/-- `ChatMessageRequest` in `src/gui.rs`: a conversation entry with a
`timestamp: Instant` field (modelled as a `Nat` tick time; the field is
`#[serde(skip)]`, display-only). -/
structure ChatMessageRequest where
  role : String
  content : String
  timestamp : Nat
deriving DecidableEq

/-- `OpenRouterChatRequest` in `src/gui.rs`: the outbound payload
`{ model, messages }`. -/
structure OpenRouterChatRequest where
  model : String
  messages : List ChatMessageRequest
deriving DecidableEq

/-- The arguments handed to one `ChatApp::send_request` call: the cloned
conversation snapshot and the model identifier (the spec's DispatchRequest;
`api_key`/`url`/`headers` are opaque to the dispatch logic and carried by the
surrounding closure). -/
structure DispatchRequest where
  conversation_snapshot : List ChatMessageRequest
  model_id : String
deriving DecidableEq

/-- The `ChatApp` state (`src/gui.rs`), restricted to the fields the
orchestration core reads or writes; the relay (`tx`/`rx` channel) is threaded
separately as an explicit queue. -/
structure ChatApp where
  conversation : List ChatMessageRequest
  input : String
  api_key : String
  url : String
  is_typing : Bool
  typing_start : Option Nat
  current_model : String
  dark_mode : Bool
deriving DecidableEq

/-- `ChatApp::new`: prepare the state; the conversation starts with one
assistant-role welcome message pushed before any user input. -/
def ChatApp.new (api_key : String) (url : String) : ChatApp :=
  { conversation :=
      [{ role := "assistant",
         content := "Hello! I\x27m an AI assistant. How can I help you today?",
         timestamp := 0 }],
    input := "",
    api_key := api_key,
    url := url,
    is_typing := false,
    typing_start := none,
    current_model := "deepseek/deepseek-chat:free",
    dark_mode := false }

/-- The environment-supplied result of the HTTP exchange inside
`ChatApp::send_request`: either the transport failed, or a response arrived
with a `status`, the result of `response.text().await.ok()` and the result of
`serde_json::from_str(..).ok()` (`none` models a decode failure). -/
inductive DispatchOutcome where
  | sendErr (e : String)
  | resp (status : Nat) (textRes : Option String)
      (decoded : Option OpenRouterChatResponse)

/-- The value of `result` computed by the async block in
`ChatApp::send_request`: on any failure `none`; on success the first choice
only, mapped to a message with the role hard-coded to `"assistant"`. -/
def send_request_result (o : DispatchOutcome) : Option ChatMessage :=
  match o with
  | .sendErr _e => none
  | .resp status textRes decoded =>
    if !(statusIsSuccess status) then none
    else
      match textRes with
      | none => none
      | some _response_text =>
        match decoded with
        | none => none
        | some chat_response =>
          match chat_response.choices.head? with
          | some choice =>
            some { role := "assistant", content := choice.message.content }
          | none => none

/-- The effect of one `send_request` execution on the relay queue:
`if let Some(assistant_msg) = result { let _ = tx.send(assistant_msg); }` —
zero or one message is appended. -/
def send_request_effect (relay : List ChatMessage) (o : DispatchOutcome) :
    List ChatMessage :=
  match send_request_result o with
  | some assistant_msg => relay ++ [assistant_msg]
  | none => relay

/-- The timestamp-stripping map in `send_request` (it rebuilds each entry
field by field, in fact keeping the timestamp) followed by the request-body
construction `OpenRouterChatRequest { model, messages }`. -/
def api_conversation (conversation : List ChatMessageRequest) :
    List ChatMessageRequest :=
  conversation.map fun msg =>
    { role := msg.role, content := msg.content, timestamp := msg.timestamp }

/-- The outbound payload serialized by one dispatch execution. -/
def request_body (req : DispatchRequest) : OpenRouterChatRequest :=
  { model := req.model_id, messages := api_conversation req.conversation_snapshot }

/-- The per-frame environment of one `ChatApp::update` call: the text the
`TextEdit` widget wrote into `self.input` this frame (if the user typed),
whether the send action fired (`send_button.clicked() ||` Ctrl+Enter), and the
frame's `Instant::now()` reading. -/
structure TickInput where
  typedInput : Option String
  sendClicked : Bool
  now : Nat

/-- What one `ChatApp::update` call produces: the new state, the relay queue
after consumption, and the dispatch launched this frame (empty or singleton). -/
structure TickResult where
  app : ChatApp
  relay : List ChatMessage
  launched : List DispatchRequest

/-- First phase of `ChatApp::update`: `if let Ok(msg) = self.rx.try_recv()`,
push the relayed message (with the frame's current time as its timestamp) and
clear `is_typing` and `typing_start`. -/
def recv_phase (app : ChatApp) (relay : List ChatMessage) (now : Nat) :
    ChatApp × List ChatMessage :=
  match relay with
  | msg :: rest =>
    ({ app with
        conversation := app.conversation ++
          [{ role := msg.role, content := msg.content, timestamp := now }],
        is_typing := false,
        typing_start := none }, rest)
  | [] => (app, relay)

/-- Typing-indicator phase of `ChatApp::update` (inside the scroll area):
`if self.is_typing { if self.typing_start.is_none() { self.typing_start =
Some(Instant::now()); } }`. -/
def typing_phase (app : ChatApp) (now : Nat) : ChatApp :=
  if app.is_typing && app.typing_start.isNone then
    { app with typing_start := some now }
  else app

/-- Input-area phase of `ChatApp::update`: the `TextEdit` writes the typed
text into `self.input`, then `should_send` gates on a click/Ctrl+Enter, a
non-empty trimmed input, and `!self.is_typing`; on send, push the user
message, set `is_typing`, clone the conversation, and launch `send_request`
with the snapshot and the current model. -/
def input_phase (app : ChatApp) (inp : TickInput) :
    ChatApp × List DispatchRequest :=
  let app := { app with input := inp.typedInput.getD app.input }
  let should_send := inp.sendClicked && !(app.input.trim.isEmpty) && !app.is_typing
  if should_send then
    let text := app.input.trim
    let app := { app with
      conversation := app.conversation ++
        [({ role := "user", content := text, timestamp := inp.now } :
          ChatMessageRequest)] }
    let app := { app with is_typing := true }
    let conv_clone := app.conversation
    let req : DispatchRequest :=
      { conversation_snapshot := conv_clone, model_id := app.current_model }
    let app := { app with input := "" }
    (app, [req])
  else
    (app, [])

/-- One full `ChatApp::update` frame, in source order: relay consumption,
typing-indicator bookkeeping, then input handling. -/
def ChatApp.update (app : ChatApp) (relay : List ChatMessage) (inp : TickInput) :
    TickResult :=
  { app := (input_phase (typing_phase (recv_phase app relay inp.now).1 inp.now) inp).1,
    relay := (recv_phase app relay inp.now).2,
    launched := (input_phase (typing_phase (recv_phase app relay inp.now).1 inp.now) inp).2 }

/-- Iterate `update` over frames whose relay arrivals are chosen by the
environment (each frame sees an arbitrary queue of messages the background
threads have sent so far). -/
def runFrames (app : ChatApp) :
    List (List ChatMessage × TickInput) → ChatApp
  | [] => app
  | (arrivals, inp) :: rest =>
    runFrames (ChatApp.update app arrivals inp).app rest

/-- Iterate `update` over frames with an empty relay throughout (no dispatch
execution ever sent a message), returning the final state and relay. -/
def runIdleFrames (app : ChatApp) (relay : List ChatMessage) :
    List TickInput → ChatApp × List ChatMessage
  | [] => (app, relay)
  | inp :: rest =>
    let r := ChatApp.update app relay inp
    runIdleFrames r.app r.relay rest

/-- A dispatch outcome that counts as a successful dispatch in the GUI
variant: transport ok, success status, body read and decoded, at least one
choice. -/
def IsSuccessOutcome (o : DispatchOutcome) : Prop :=
  ∃ status text chat_response,
    o = .resp status (some text) (some chat_response) ∧
    statusIsSuccess status = true ∧ chat_response.choices ≠ []

/-- A dispatch outcome on one of the three failure paths of `send_request`:
transport error, non-success status, or an unreadable/undecodable body. -/
def IsFailureOutcome (o : DispatchOutcome) : Prop :=
  (∃ e, o = .sendErr e) ∨
  (∃ status textRes decoded, o = .resp status textRes decoded ∧
    statusIsSuccess status = false) ∨
  (∃ status decoded, o = .resp status none decoded) ∨
  (∃ status textRes, o = .resp status textRes none)

/-- One complete exchange as the user experiences it: type `text`, a frame
with the send action, the spawned dispatch runs to completion with outcome
`o` (appending its result, if any, to the relay), then a frame that drains
the relay. -/
def submitAndAnswer (app : ChatApp) (relay : List ChatMessage) (text : String)
    (o : DispatchOutcome) (t : Nat) : ChatApp × List ChatMessage :=
  let r1 := ChatApp.update app relay
    { typedInput := some text, sendClicked := true, now := t }
  let relay1 := send_request_effect r1.relay o
  let r2 := ChatApp.update r1.app relay1
    { typedInput := none, sendClicked := false, now := t + 1 }
  (r2.app, r2.relay)

/-- Fold `submitAndAnswer` over a list of submissions (text, dispatch
outcome, frame time). -/
def runSubmissions (app : ChatApp) (relay : List ChatMessage) :
    List (String × DispatchOutcome × Nat) → ChatApp × List ChatMessage
  | [] => (app, relay)
  | (text, o, t) :: rest =>
    let r := submitAndAnswer app relay text o t
    runSubmissions r.1 r.2 rest

/-- `Vec::push` on the conversation buffer (the Transcript Store append). -/
def Transcript.append (conversation : List ChatMessageRequest)
    (m : ChatMessageRequest) : List ChatMessageRequest :=
  conversation ++ [m]

/-- `self.conversation.clone()` (the Transcript Store snapshot): an
independent copy by value. -/
def Transcript.snapshot (conversation : List ChatMessageRequest) :
    List ChatMessageRequest :=
  conversation

/-- A concrete state for closed-instance checks. -/
def sampleApp : ChatApp := ChatApp.new "test-key" "http://localhost/api"

/-- A concrete state in the `AwaitingResponse` phase. -/
def awaitingApp : ChatApp := { sampleApp with is_typing := true }

/-- A concrete fully-successful dispatch outcome. -/
def successOutcome (reply : String) : DispatchOutcome :=
  .resp 200 (some "raw body") (some (sampleResponse reply))

/-- The GUI transcript after one submission answered by a successful
dispatch, with all relay messages drained. -/
def oneExchangeTranscript : List ChatMessageRequest :=
  (runSubmissions (ChatApp.new "test-key" "http://localhost/api") []
    [("hello", successOutcome "hi there", 1)]).1.conversation

namespace ChatApp

theorem recv_phase_nil (app : ChatApp) (now : Nat) :
    recv_phase app [] now = (app, []) := rfl

theorem recv_phase_cons (app : ChatApp) (msg : ChatMessage)
    (rest : List ChatMessage) (now : Nat) :
    recv_phase app (msg :: rest) now =
      ({ app with
          conversation := app.conversation ++
            [{ role := msg.role, content := msg.content, timestamp := now }],
          is_typing := false,
          typing_start := none }, rest) := rfl

theorem typing_phase_of_not_typing {app : ChatApp} (h : app.is_typing = false)
    (now : Nat) : typing_phase app now = app := by
  simp [typing_phase, h]

theorem typing_phase_of_typing_none {app : ChatApp} (h1 : app.is_typing = true)
    (h2 : app.typing_start = none) (now : Nat) :
    typing_phase app now = { app with typing_start := some now } := by
  simp [typing_phase, h1, h2]

theorem typing_phase_of_some {app : ChatApp} {t : Nat}
    (h2 : app.typing_start = some t) (now : Nat) :
    typing_phase app now = app := by
  simp [typing_phase, h2]

theorem input_phase_of_typing {app : ChatApp} (h : app.is_typing = true)
    (inp : TickInput) :
    input_phase app inp =
      ({ app with input := inp.typedInput.getD app.input }, []) := by
  simp [input_phase, h]

theorem input_phase_of_not_clicked {app : ChatApp} {inp : TickInput}
    (h : inp.sendClicked = false) :
    input_phase app inp =
      ({ app with input := inp.typedInput.getD app.input }, []) := by
  simp [input_phase, h]

theorem input_phase_of_send {app : ChatApp} {inp : TickInput}
    (htyping : app.is_typing = false)
    (hclick : inp.sendClicked = true)
    (htext : (inp.typedInput.getD app.input).trim.isEmpty = false) :
    input_phase app inp =
      ({ app with
          conversation := app.conversation ++
            [{ role := "user", content := (inp.typedInput.getD app.input).trim,
               timestamp := inp.now }],
          is_typing := true,
          input := "" },
       [{ conversation_snapshot := app.conversation ++
            [{ role := "user", content := (inp.typedInput.getD app.input).trim,
               timestamp := inp.now }],
          model_id := app.current_model }]) := by
  simp [input_phase, htyping, hclick, htext]

@[simp]
theorem typing_phase_conversation (app : ChatApp) (now : Nat) :
    (typing_phase app now).conversation = app.conversation := by
  unfold typing_phase; split <;> rfl

@[simp]
theorem typing_phase_is_typing (app : ChatApp) (now : Nat) :
    (typing_phase app now).is_typing = app.is_typing := by
  unfold typing_phase; split <;> rfl

@[simp]
theorem typing_phase_input (app : ChatApp) (now : Nat) :
    (typing_phase app now).input = app.input := by
  unfold typing_phase; split <;> rfl

@[simp]
theorem typing_phase_current_model (app : ChatApp) (now : Nat) :
    (typing_phase app now).current_model = app.current_model := by
  unfold typing_phase; split <;> rfl

/-- While `is_typing` is set and the relay is empty, a frame changes nothing
the orchestration cares about: conversation unchanged, still typing, no
dispatch launched, relay still empty. -/
theorem update_awaiting {app : ChatApp} (h : app.is_typing = true)
    (inp : TickInput) :
    (ChatApp.update app [] inp).app.conversation = app.conversation ∧
    (ChatApp.update app [] inp).app.is_typing = true ∧
    (ChatApp.update app [] inp).launched = [] ∧
    (ChatApp.update app [] inp).relay = [] := by
  have h2 : (typing_phase app inp.now).is_typing = true := by
    rw [typing_phase_is_typing]; exact h
  unfold ChatApp.update
  rw [recv_phase_nil]
  simp [input_phase_of_typing h2, h]

theorem runIdleFrames_awaiting {app : ChatApp} :
    ∀ (inputs : List TickInput), app.is_typing = true →
      (runIdleFrames app [] inputs).1.is_typing = true ∧
      (runIdleFrames app [] inputs).2 = [] ∧
      (runIdleFrames app [] inputs).1.conversation = app.conversation := by
  intro inputs
  induction inputs generalizing app with
  | nil => intro h; exact ⟨h, rfl, rfl⟩
  | cons inp rest ih =>
    intro h
    obtain ⟨hconv, htyp, hlaunch, hrelay⟩ := update_awaiting h inp
    have := @ih ((ChatApp.update app [] inp).app) htyp
    simp only [runIdleFrames, hrelay]
    exact ⟨this.1, this.2.1, this.2.2.trans hconv⟩

/-- A frame that launches a dispatch: empty relay, send action fired, trimmed
input non-empty, not already waiting.  The user message is appended,
`is_typing` is set, the input box is cleared, and one dispatch carrying the
post-append snapshot is launched.  Note `typing_start` is NOT touched here. -/
theorem update_send {app : ChatApp} {inp : TickInput}
    (happ : app.is_typing = false) (hclick : inp.sendClicked = true)
    (htext : (inp.typedInput.getD app.input).trim.isEmpty = false) :
    ChatApp.update app [] inp =
      { app :=
          { app with
            conversation := app.conversation ++
              [{ role := "user",
                 content := (inp.typedInput.getD app.input).trim,
                 timestamp := inp.now }],
            is_typing := true,
            input := "" },
        relay := [],
        launched :=
          [{ conversation_snapshot :=
               app.conversation ++
                 [{ role := "user",
                    content := (inp.typedInput.getD app.input).trim,
                    timestamp := inp.now }],
             model_id := app.current_model }] } := by
  unfold ChatApp.update
  rw [recv_phase_nil]
  rw [typing_phase_of_not_typing happ]
  rw [input_phase_of_send happ hclick htext]

/-- A frame that consumes a relay message (and fires no send action): the
relayed message is appended with the frame time as its timestamp, and both
`is_typing` and `typing_start` are cleared. -/
theorem update_recv {app : ChatApp} {inp : TickInput}
    (hclick : inp.sendClicked = false) (msg : ChatMessage)
    (rest : List ChatMessage) :
    ChatApp.update app (msg :: rest) inp =
      { app := { app with
          conversation := app.conversation ++
            [{ role := msg.role, content := msg.content, timestamp := inp.now }],
          is_typing := false,
          typing_start := none,
          input := inp.typedInput.getD app.input },
        relay := rest,
        launched := [] } := by
  unfold ChatApp.update
  rw [recv_phase_cons]
  rw [typing_phase_of_not_typing rfl]
  rw [input_phase_of_not_clicked hclick]

theorem input_phase_conversation_extends (app : ChatApp) (inp : TickInput) :
    ∃ t, (input_phase app inp).1.conversation = app.conversation ++ t := by
  simp only [input_phase]
  split
  · exact ⟨_, rfl⟩
  · exact ⟨[], by simp⟩

/-- Every frame only ever appends to the conversation: no operation removes
or reorders messages. -/
theorem update_conversation_extends (app : ChatApp) (relay : List ChatMessage)
    (inp : TickInput) :
    ∃ t, (ChatApp.update app relay inp).app.conversation =
      app.conversation ++ t := by
  unfold ChatApp.update
  cases relay with
  | nil =>
    rw [recv_phase_nil]
    obtain ⟨t, ht⟩ :=
      input_phase_conversation_extends (typing_phase app inp.now) inp
    exact ⟨t, by simp [ht]⟩
  | cons msg rest =>
    rw [recv_phase_cons]
    obtain ⟨t, ht⟩ := input_phase_conversation_extends
      (typing_phase
        ({ app with
            conversation := app.conversation ++
              [{ role := msg.role, content := msg.content, timestamp := inp.now }],
            is_typing := false,
            typing_start := none }) inp.now) inp
    refine ⟨{ role := msg.role, content := msg.content,
              timestamp := inp.now } :: t, ?_⟩
    simp [ht]

/-- `send_request` under a fully successful outcome produces the first
choice's content with the role hard-coded to `"assistant"`. -/
theorem send_request_result_success {status : Nat} {text : String}
    {resp : OpenRouterChatResponse} {c : ChatChoice} {cs : List ChatChoice}
    (hst : statusIsSuccess status = true) (hc : resp.choices = c :: cs) :
    send_request_result (.resp status (some text) (some resp)) =
      some { role := "assistant", content := c.message.content } := by
  simp [send_request_result, hst, hc]

/-- One submit-then-drain exchange under a successful dispatch: the
conversation grows by exactly one user and one assistant message, the pending
state ends cleared, and the relay ends empty. -/
theorem submitAndAnswer_success {app : ChatApp} {text : String}
    {o : DispatchOutcome} {t : Nat}
    (happ : app.is_typing = false)
    (htext : text.trim.isEmpty = false)
    (ho : IsSuccessOutcome o) :
    ∃ reply,
      (submitAndAnswer app [] text o t).1.conversation =
        app.conversation ++
          [{ role := "user", content := text.trim, timestamp := t },
           { role := "assistant", content := reply, timestamp := t + 1 }] ∧
      (submitAndAnswer app [] text o t).1.is_typing = false ∧
      (submitAndAnswer app [] text o t).1.typing_start = none ∧
      (submitAndAnswer app [] text o t).2 = [] := by
  obtain ⟨status, textv, resp, rfl, hst, hch⟩ := ho
  obtain ⟨c, cs, hc⟩ : ∃ c cs, resp.choices = c :: cs := by
    cases h : resp.choices with
    | nil => exact absurd h hch
    | cons c cs => exact ⟨c, cs, rfl⟩
  refine ⟨c.message.content, ?_⟩
  have h1 := @update_send app
    { typedInput := some text, sendClicked := true, now := t }
    happ rfl htext
  have heff : send_request_effect [] (.resp status (some textv) (some resp)) =
      [{ role := "assistant", content := c.message.content }] := by
    simp [send_request_effect, send_request_result_success hst hc]
  simp only [submitAndAnswer, h1, heff]
  rw [update_recv rfl]
  simp [List.append_assoc]

/-- Folding successful exchanges: the conversation grows by a strictly
alternating `user, assistant` block per submission, and the run ends idle
with the relay drained. -/
theorem runSubmissions_success :
    ∀ (subs : List (String × DispatchOutcome × Nat)) (app : ChatApp),
      app.is_typing = false →
      (∀ s ∈ subs, s.1.trim.isEmpty = false ∧ IsSuccessOutcome s.2.1) →
      ∃ tail,
        (runSubmissions app [] subs).1.conversation = app.conversation ++ tail ∧
        tail.map (fun m => m.role) = altUA subs.length ∧
        (runSubmissions app [] subs).1.is_typing = false ∧
        (runSubmissions app [] subs).2 = [] := by
  intro subs
  induction subs with
  | nil =>
    intro app happ _
    exact ⟨[], by simp [runSubmissions], rfl, happ, rfl⟩
  | cons s rest ih =>
    intro app happ hall
    obtain ⟨text, o, t⟩ := s
    obtain ⟨htext, ho⟩ := hall (text, o, t) (by simp)
    obtain ⟨reply, hconv, htyp, -, hrelay⟩ :=
      submitAndAnswer_success (t := t) happ htext ho
    obtain ⟨tail, ihconv, ihroles, ihtyp, ihrelay⟩ :=
      ih (submitAndAnswer app [] text o t).1 htyp
        (fun s hs => hall s (by simp [hs]))
    refine ⟨[{ role := "user", content := text.trim, timestamp := t },
             { role := "assistant", content := reply, timestamp := t + 1 }] ++
              tail, ?_, ?_, ?_, ?_⟩
    · simp only [runSubmissions, hrelay] at ihconv ⊢
      rw [ihconv, hconv, List.append_assoc]
    · simp [ihroles, altUA]
    · simpa only [runSubmissions, hrelay] using ihtyp
    · simpa only [runSubmissions, hrelay] using ihrelay

end ChatApp

end Gui

namespace Cli

/-- One CLI iteration under a fully successful exchange appends the user
message and the assistant message built from the first choice. -/
theorem iteration_success {conv : List ChatMessageRequest} {u : String}
    {status : Nat} {text : String} {resp : OpenRouterChatResponse}
    {c : ChatChoice} {cs : List ChatChoice}
    (hst : statusIsSuccess status = true) (hc : resp.choices = c :: cs) :
    iteration conv u (.resp status (.ok text) (some resp)) =
      .ok (conv ++
        [{ role := "user", content := u },
         { role := "assistant", content := c.message.content }]) := by
  simp [iteration, hst, hc]

/-- Folding successful CLI exchanges: the loop never faults and the
conversation grows by a strictly alternating `user, assistant` block per
submission. -/
theorem run_success :
    ∀ (subs : List (String × Outcome)) (conv : List ChatMessageRequest),
      (∀ s ∈ subs, IsSuccessAnswer s.2) →
      ∃ tail, run conv subs = .ok (conv ++ tail) ∧
        tail.map (fun m => m.role) = altUA subs.length := by
  intro subs
  induction subs with
  | nil =>
    intro conv _
    exact ⟨[], by simp [run], rfl⟩
  | cons s rest ih =>
    intro conv hall
    obtain ⟨u, o⟩ := s
    obtain ⟨status, text, resp, rfl, hst, hch⟩ := hall (u, o) (by simp)
    obtain ⟨c, cs, hc⟩ : ∃ c cs, resp.choices = c :: cs := by
      cases h : resp.choices with
      | nil => exact absurd h hch
      | cons c cs => exact ⟨c, cs, rfl⟩
    obtain ⟨tail, ihrun, ihroles⟩ :=
      ih (conv ++
        [{ role := "user", content := u },
         { role := "assistant", content := c.message.content }])
        (fun s hs => hall s (by simp [hs]))
    refine ⟨[{ role := "user", content := u },
             { role := "assistant", content := c.message.content }] ++ tail,
            ?_, ?_⟩
    · simp only [run, iteration_success hst hc, ihrun, List.append_assoc]
    · simp [ihroles, altUA]

end Cli

example :
    Cli.iteration [] "hello"
      (Cli.Outcome.resp 200 (.ok "body")
        (some { id := "i", object := "o", created := 0,
                choices := [{ index := some 0,
                              message := { role := "assistant", content := "hi there" },
                              finish_reason := some "stop" }] })) =
      .ok [{ role := "user", content := "hello" },
           { role := "assistant", content := "hi there" }] := by
  rfl

example :
    Cli.iteration [] "ping" (Cli.Outcome.sendErr "conn refused") =
      .error "conn refused" := by
  rfl

/-! ## Claims -/

/-- C5: While the Interaction Loop is in the `AwaitingResponse` state
(`is_typing` true) and no relay message has arrived in the frame, every new
user submission is rejected: nothing is appended to the transcript and no
dispatch is launched (and the loop stays pending), so at most one dispatch is
in flight at any time. -/
theorem c5_single_in_flight {app : Gui.ChatApp}
    (hpending : app.is_typing = true) (inp : Gui.TickInput) :
    (Gui.ChatApp.update app [] inp).app.conversation = app.conversation ∧
    (Gui.ChatApp.update app [] inp).launched = [] ∧
    (Gui.ChatApp.update app [] inp).app.is_typing = true := by
  obtain ⟨h1, h2, h3, -⟩ := Gui.ChatApp.update_awaiting hpending inp
  exact ⟨h1, h3, h2⟩

/-- C5 witness: a concrete pending state rejects a concrete send attempt. -/
theorem c5_witness :
    Gui.awaitingApp.is_typing = true ∧
    ((Gui.ChatApp.update Gui.awaitingApp []
        { typedInput := some "another question", sendClicked := true,
          now := 7 }).app.conversation = Gui.awaitingApp.conversation ∧
     (Gui.ChatApp.update Gui.awaitingApp []
        { typedInput := some "another question", sendClicked := true,
          now := 7 }).launched = [] ∧
     (Gui.ChatApp.update Gui.awaitingApp []
        { typedInput := some "another question", sendClicked := true,
          now := 7 }).app.is_typing = true) :=
  ⟨rfl, c5_single_in_flight rfl _⟩

/-- C4: A dispatch execution that yields no result (any failure path) never
sends a message on the relay, so the pending flag is never cleared by relay
consumption: through any further sequence of frames with the relay empty, the
Interaction Loop stays in `AwaitingResponse` (and, single-in-flight, never
returns to `Idle` via the relay). -/
theorem c4_failure_never_clears_pending {o : Gui.DispatchOutcome}
    (hfail : Gui.send_request_result o = none)
    {app : Gui.ChatApp} (hpending : app.is_typing = true)
    (relay : List ChatMessage) (inputs : List Gui.TickInput) :
    Gui.send_request_effect relay o = relay ∧
    (Gui.runIdleFrames app [] inputs).1.is_typing = true ∧
    (Gui.runIdleFrames app [] inputs).2 = [] := by
  refine ⟨?_, ?_, ?_⟩
  · simp [Gui.send_request_effect, hfail]
  · exact (Gui.ChatApp.runIdleFrames_awaiting inputs hpending).1
  · exact (Gui.ChatApp.runIdleFrames_awaiting inputs hpending).2.1

/-- C4 witness: a concrete transport failure puts nothing on the relay and a
concrete pending state stays pending over two further frames. -/
theorem c4_witness :
    Gui.send_request_result (.sendErr "connection timed out") = none ∧
    Gui.awaitingApp.is_typing = true ∧
    (Gui.send_request_effect [] (.sendErr "connection timed out") = [] ∧
     (Gui.runIdleFrames Gui.awaitingApp []
        [{ typedInput := some "hi", sendClicked := true, now := 3 },
         { typedInput := none, sendClicked := false, now := 4 }]).1.is_typing
       = true ∧
     (Gui.runIdleFrames Gui.awaitingApp []
        [{ typedInput := some "hi", sendClicked := true, now := 3 },
         { typedInput := none, sendClicked := false, now := 4 }]).2 = []) :=
  ⟨rfl, rfl,
    c4_failure_never_clears_pending (o := .sendErr "connection timed out")
      rfl rfl _ _⟩

/-- Concrete evaluation of `String.trim` on `"hi"` (the recursion is
well-founded, so one manual unfold of each scan is needed). -/
theorem trim_hi : "hi".trim = "hi" := by
  simp only [String.trim, Substring.trim, String.toSubstring]
  rw [Substring.takeWhileAux, Substring.takeRightWhileAux]
  decide

theorem trim_hi_not_empty : "hi".trim.isEmpty = false := by
  rw [trim_hi]; rfl

/-- Concrete evaluation of `String.trim` on `"hello"`. -/
theorem trim_hello : "hello".trim = "hello" := by
  simp only [String.trim, Substring.trim, String.toSubstring]
  rw [Substring.takeWhileAux, Substring.takeRightWhileAux]
  decide

theorem trim_hello_not_empty : "hello".trim.isEmpty = false := by
  rw [trim_hello]; rfl

/-- C3 counterexample: launching a dispatch does NOT set `started_at = now`.
After a concrete launch frame at time 5 (which does launch a dispatch and set
`is_waiting`), `typing_start` is still `none`, not `some 5`. -/
theorem c3_counterexample :
    (Gui.ChatApp.update Gui.sampleApp []
      { typedInput := some "hi", sendClicked := true, now := 5 }).launched ≠
        [] ∧
    (Gui.ChatApp.update Gui.sampleApp []
      { typedInput := some "hi", sendClicked := true, now := 5 }).app.is_typing
      = true ∧
    (Gui.ChatApp.update Gui.sampleApp []
      { typedInput := some "hi", sendClicked := true,
        now := 5 }).app.typing_start = none ∧
    ¬((Gui.ChatApp.update Gui.sampleApp []
      { typedInput := some "hi", sendClicked := true,
        now := 5 }).app.typing_start = some 5) := by
  rw [@Gui.ChatApp.update_send Gui.sampleApp
    { typedInput := some "hi", sendClicked := true, now := 5 }
    rfl rfl trim_hi_not_empty]
  exact ⟨List.cons_ne_nil _ _, rfl, rfl, by decide⟩

/-- C3 amended: launching a dispatch sets `is_waiting = true` but leaves
`started_at` untouched; `started_at = now` is set by the first subsequent
frame that renders while waiting with `started_at` unset; both are cleared
together when the corresponding relay message arrives and is consumed. -/
theorem c3_pending_state_protocol {app : Gui.ChatApp} {inp : Gui.TickInput} :
    (app.is_typing = false → inp.sendClicked = true →
      (inp.typedInput.getD app.input).trim.isEmpty = false →
      (Gui.ChatApp.update app [] inp).app.is_typing = true ∧
      (Gui.ChatApp.update app [] inp).app.typing_start = app.typing_start) ∧
    (app.is_typing = true → app.typing_start = none →
      (Gui.ChatApp.update app [] inp).app.typing_start = some inp.now ∧
      (Gui.ChatApp.update app [] inp).app.is_typing = true) ∧
    (∀ (msg : ChatMessage) (rest : List ChatMessage),
      inp.sendClicked = false →
      (Gui.ChatApp.update app (msg :: rest) inp).app.is_typing = false ∧
      (Gui.ChatApp.update app (msg :: rest) inp).app.typing_start = none) := by
  refine ⟨?_, ?_, ?_⟩
  · intro happ hclick htext
    rw [Gui.ChatApp.update_send happ hclick htext]
    exact ⟨rfl, rfl⟩
  · intro happ hstart
    unfold Gui.ChatApp.update
    rw [Gui.ChatApp.recv_phase_nil,
      Gui.ChatApp.typing_phase_of_typing_none happ hstart]
    rw [Gui.ChatApp.input_phase_of_typing
      (show ({ app with typing_start := some inp.now } : Gui.ChatApp).is_typing
          = true from happ)]
    exact ⟨rfl, happ⟩
  · intro msg rest hclick
    rw [Gui.ChatApp.update_recv hclick]
    exact ⟨rfl, rfl⟩

/-- C3 witness: the three phases of the amended protocol at concrete states:
a launch at time 5, a first waiting frame at time 9, and a relay-consumption
frame at time 11. -/
theorem c3_witness :
    ((Gui.ChatApp.update Gui.sampleApp []
        { typedInput := some "hi", sendClicked := true, now := 5 }).app.is_typing
        = true ∧
     (Gui.ChatApp.update Gui.sampleApp []
        { typedInput := some "hi", sendClicked := true, now := 5 }).app.typing_start
        = Gui.sampleApp.typing_start) ∧
    ((Gui.ChatApp.update Gui.awaitingApp []
        { typedInput := none, sendClicked := false, now := 9 }).app.typing_start
        = some 9) ∧
    ((Gui.ChatApp.update Gui.awaitingApp
        [{ role := "assistant", content := "hi there" }]
        { typedInput := none, sendClicked := false, now := 11 }).app.is_typing
        = false ∧
     (Gui.ChatApp.update Gui.awaitingApp
        [{ role := "assistant", content := "hi there" }]
        { typedInput := none, sendClicked := false, now := 11 }).app.typing_start
        = none) :=
  ⟨(@c3_pending_state_protocol Gui.sampleApp
      { typedInput := some "hi", sendClicked := true, now := 5 }).1
      rfl rfl trim_hi_not_empty,
   ((@c3_pending_state_protocol Gui.awaitingApp
      { typedInput := none, sendClicked := false, now := 9 }).2.1
      rfl rfl).1,
   (@c3_pending_state_protocol Gui.awaitingApp
      { typedInput := none, sendClicked := false, now := 11 }).2.2
      { role := "assistant", content := "hi there" } [] rfl⟩

/-- C2 counterexample: the failure kinds are NOT handled identically in the
CLI variant: a transport error propagates as a fault out of the Interaction
Loop (`Except.error`, terminating `main` via `?`), while a non-success HTTP
status is swallowed and the loop continues. -/
theorem c2_counterexample :
    Cli.iteration [] "ping" (Cli.Outcome.sendErr "connection refused") =
      .error "connection refused" ∧
    Cli.iteration [] "ping" (Cli.Outcome.resp 500 (.ok "oops") none) =
      .ok [{ role := "user", content := "ping" }] :=
  ⟨rfl, rfl⟩

/-- C2 amended: in the GUI variant all three failure kinds (transport error,
non-success status, unreadable or undecodable body) are handled identically —
no Message is produced, nothing reaches the relay, no fault propagates.  In
the CLI variant only the non-success status and the decode failure are
non-fatal (the loop continues with just the user message appended); a
transport error — and a body-read error — propagates out of the Interaction
Loop as an `Except.error` and aborts the process. -/
theorem c2_failure_handling :
    (∀ o : Gui.DispatchOutcome, Gui.IsFailureOutcome o →
      Gui.send_request_result o = none ∧
      ∀ relay, Gui.send_request_effect relay o = relay) ∧
    (∀ (conv : List Cli.ChatMessageRequest) (u e : String),
      Cli.iteration conv u (.sendErr e) = .error e) ∧
    (∀ (conv : List Cli.ChatMessageRequest) (u : String) (status : Nat)
        (text : String) (decoded : Option OpenRouterChatResponse),
      statusIsSuccess status = false →
      Cli.iteration conv u (.resp status (.ok text) decoded) =
        .ok (conv ++ [{ role := "user", content := u }])) ∧
    (∀ (conv : List Cli.ChatMessageRequest) (u : String) (status : Nat)
        (text : String),
      statusIsSuccess status = true →
      Cli.iteration conv u (.resp status (.ok text) none) =
        .ok (conv ++ [{ role := "user", content := u }])) ∧
    (∀ (conv : List Cli.ChatMessageRequest) (u : String) (status : Nat)
        (e : String) (decoded : Option OpenRouterChatResponse),
      Cli.iteration conv u (.resp status (.error e) decoded) = .error e) := by
  refine ⟨?_, ?_, ?_, ?_, ?_⟩
  · intro o ho
    have hres : Gui.send_request_result o = none := by
      rcases ho with ⟨e, rfl⟩ | ⟨status, textRes, decoded, rfl, hst⟩ |
        ⟨status, decoded, rfl⟩ | ⟨status, textRes, rfl⟩
      · rfl
      · simp [Gui.send_request_result, hst]
      · cases hst : statusIsSuccess status <;>
          simp [Gui.send_request_result, hst]
      · cases hst : statusIsSuccess status <;>
          cases textRes <;>
          simp [Gui.send_request_result, hst]
    exact ⟨hres, fun relay => by simp [Gui.send_request_effect, hres]⟩
  · intro conv u e; rfl
  · intro conv u status text decoded hst
    simp [Cli.iteration, hst]
  · intro conv u status text hst
    simp [Cli.iteration, hst]
  · intro conv u status e decoded
    cases hst : statusIsSuccess status <;> simp [Cli.iteration, hst]

/-- C2 witness: the amended statement at concrete inputs — a GUI transport
error, a GUI 500 status, a GUI decode failure, a CLI transport error, a CLI
404 status, and a CLI decode failure. -/
theorem c2_witness :
    (Gui.send_request_result (.sendErr "timed out") = none ∧
     Gui.send_request_effect [] (.sendErr "timed out") = []) ∧
    (Gui.send_request_result (.resp 500 (some "oops") none) = none ∧
     Gui.send_request_effect [] (.resp 500 (some "oops") none) = []) ∧
    (Gui.send_request_result (.resp 200 (some "garbage") none) = none ∧
     Gui.send_request_effect [] (.resp 200 (some "garbage") none) = []) ∧
    Cli.iteration [] "hi" (.sendErr "timed out") = .error "timed out" ∧
    Cli.iteration [] "hi" (.resp 404 (.ok "not found") none) =
      .ok [{ role := "user", content := "hi" }] ∧
    Cli.iteration [] "hi" (.resp 200 (.ok "garbage") none) =
      .ok [{ role := "user", content := "hi" }] :=
  ⟨⟨(c2_failure_handling.1 _ (Or.inl ⟨"timed out", rfl⟩)).1,
    (c2_failure_handling.1 _ (Or.inl ⟨"timed out", rfl⟩)).2 []⟩,
   ⟨(c2_failure_handling.1 _
      (Or.inr (Or.inl ⟨500, some "oops", none, rfl, rfl⟩))).1,
    (c2_failure_handling.1 _
      (Or.inr (Or.inl ⟨500, some "oops", none, rfl, rfl⟩))).2 []⟩,
   ⟨(c2_failure_handling.1 _
      (Or.inr (Or.inr (Or.inr ⟨200, some "garbage", rfl⟩)))).1,
    (c2_failure_handling.1 _
      (Or.inr (Or.inr (Or.inr ⟨200, some "garbage", rfl⟩)))).2 []⟩,
   c2_failure_handling.2.1 [] "hi" "timed out",
   c2_failure_handling.2.2.1 [] "hi" 404 "not found" none rfl,
   c2_failure_handling.2.2.2.1 [] "hi" 200 "garbage" rfl⟩

/-- C1 counterexample: in the GUI variant, after N = 1 submission answered by
a successful dispatch and with the relay drained, the transcript holds 3
messages (not 2N = 2) and begins with the assistant-role welcome message (not
a user-role message). -/
theorem c1_counterexample :
    Gui.oneExchangeTranscript.map (fun m => m.role) =
      ["assistant", "user", "assistant"] ∧
    Gui.oneExchangeTranscript.length = 3 ∧
    ¬(Gui.oneExchangeTranscript.length = 2 * 1 ∧
      Gui.oneExchangeTranscript.map (fun m => m.role) = altUA 1) := by
  obtain ⟨reply, hconv, -, -, -⟩ :=
    @Gui.ChatApp.submitAndAnswer_success
      (Gui.ChatApp.new "test-key" "http://localhost/api")
      "hello" (Gui.successOutcome "hi there") 1
      rfl trim_hello_not_empty
      ⟨200, "raw body", sampleResponse "hi there", rfl, rfl,
        List.cons_ne_nil _ _⟩
  have htr : Gui.oneExchangeTranscript =
      (Gui.submitAndAnswer
        (Gui.ChatApp.new "test-key" "http://localhost/api") [] "hello"
        (Gui.successOutcome "hi there") 1).1.conversation := by
    simp only [Gui.oneExchangeTranscript, Gui.runSubmissions]
  rw [htr, hconv]
  refine ⟨rfl, rfl, ?_⟩
  rintro ⟨h, -⟩
  rw [List.length_append,
    (show (Gui.ChatApp.new "test-key"
      "http://localhost/api").conversation.length = 1 from rfl)] at h
  simp at h

/-- C1 amended: with every submission answered by a successful dispatch and
all relay messages drained, the CLI transcript contains exactly 2N messages
in strict alternation starting with `user`; the GUI transcript contains
2N + 1 messages: the assistant-role welcome message followed by the same
strict `user, assistant` alternation. -/
theorem c1_alternation :
    (∀ (subs : List (String × Cli.Outcome)),
      (∀ s ∈ subs, Cli.IsSuccessAnswer s.2) →
      ∃ conv, Cli.run [] subs = .ok conv ∧
        conv.map (fun m => m.role) = altUA subs.length ∧
        conv.length = 2 * subs.length) ∧
    (∀ (api_key url : String)
        (subs : List (String × Gui.DispatchOutcome × Nat)),
      (∀ s ∈ subs, s.1.trim.isEmpty = false ∧ Gui.IsSuccessOutcome s.2.1) →
      (Gui.runSubmissions (Gui.ChatApp.new api_key url) []
          subs).1.conversation.map (fun m => m.role) =
        "assistant" :: altUA subs.length ∧
      (Gui.runSubmissions (Gui.ChatApp.new api_key url) []
          subs).1.conversation.length = 2 * subs.length + 1) := by
  constructor
  · intro subs hall
    obtain ⟨tail, hrun, hroles⟩ := Cli.run_success subs [] hall
    refine ⟨tail, by simpa using hrun, hroles, ?_⟩
    have := congrArg List.length hroles
    simpa [altUA_length] using this
  · intro api_key url subs hall
    obtain ⟨tail, hconv, hroles, -, -⟩ :=
      Gui.ChatApp.runSubmissions_success subs (Gui.ChatApp.new api_key url)
        rfl hall
    have hnew : (Gui.ChatApp.new api_key url).conversation.map
        (fun m => m.role) = ["assistant"] := rfl
    constructor
    · rw [hconv]
      simp only [List.map_append, hnew]
      rw [hroles]
      rfl
    · rw [hconv]
      have h2 : tail.length = 2 * subs.length := by
        have := congrArg List.length hroles
        simpa [altUA_length] using this
      have h1 : (Gui.ChatApp.new api_key url).conversation.length = 1 := rfl
      simp only [List.length_append, h1, h2]
      omega

/-- C1 witness: the amended claim at N = 1 with a concrete submission
`"hello"` answered by a concrete successful dispatch. -/
theorem c1_witness :
    (∃ conv, Cli.run [] [("hello", Cli.successAnswer "hi there")] = .ok conv ∧
      conv.map (fun m => m.role) = altUA 1 ∧ conv.length = 2 * 1) ∧
    ((Gui.runSubmissions (Gui.ChatApp.new "test-key" "http://localhost/api")
        [] [("hello", Gui.successOutcome "hi there", 1)]).1.conversation.map
        (fun m => m.role) = "assistant" :: altUA 1 ∧
     (Gui.runSubmissions (Gui.ChatApp.new "test-key" "http://localhost/api")
        [] [("hello", Gui.successOutcome "hi there", 1)]).1.conversation.length
        = 2 * 1 + 1) :=
  ⟨c1_alternation.1 [("hello", Cli.successAnswer "hi there")]
    (by
      rintro s hs
      rcases List.mem_singleton.mp hs with rfl
      exact ⟨200, "raw body", sampleResponse "hi there", rfl, rfl,
        List.cons_ne_nil _ _⟩),
   c1_alternation.2 "test-key" "http://localhost/api"
    [("hello", Gui.successOutcome "hi there", 1)]
    (by
      rintro s hs
      rcases List.mem_singleton.mp hs with rfl
      exact ⟨trim_hello_not_empty,
        200, "raw body", sampleResponse "hi there", rfl, rfl,
        List.cons_ne_nil _ _⟩)⟩

/-- C6: a successful dispatch whose decoded response has a non-empty
`choices` sequence yields a Message built from the first choice only
(`choices[0].message.content`): any additional choices give the identical
result; the Message has role `assistant`; and consuming it from the relay
appends it to the transcript with the current frame time as its timestamp. -/
theorem c6_first_choice_only {status : Nat} {text : String}
    {resp : OpenRouterChatResponse} {c : ChatChoice} {cs : List ChatChoice}
    (hst : statusIsSuccess status = true) (hc : resp.choices = c :: cs) :
    Gui.send_request_result (.resp status (some text) (some resp)) =
      some { role := "assistant", content := c.message.content } ∧
    (∀ extra : List ChatChoice,
      Gui.send_request_result (.resp status (some text)
          (some { resp with choices := c :: extra })) =
        some { role := "assistant", content := c.message.content }) ∧
    (∀ (app : Gui.ChatApp) (inp : Gui.TickInput), inp.sendClicked = false →
      (Gui.ChatApp.update app
          [{ role := "assistant", content := c.message.content }]
          inp).app.conversation =
        app.conversation ++
          [{ role := "assistant", content := c.message.content,
             timestamp := inp.now }]) ∧
    (∀ (conv : List Cli.ChatMessageRequest) (u : String),
      Cli.iteration conv u (.resp status (.ok text) (some resp)) =
        .ok (conv ++
          [{ role := "user", content := u },
           { role := "assistant", content := c.message.content }])) := by
  refine ⟨Gui.ChatApp.send_request_result_success hst hc, ?_, ?_, ?_⟩
  · intro extra
    exact Gui.ChatApp.send_request_result_success hst rfl
  · intro app inp hclick
    rw [Gui.ChatApp.update_recv hclick]
  · intro conv u
    exact Cli.iteration_success hst hc

/-- C6 witness: a concrete 200 response with two choices produces the first
choice's content only, and a concrete consumption frame timestamps it with
the frame time. -/
theorem c6_witness :
    Gui.send_request_result (.resp 200 (some "raw")
        (some { id := "gen-3", object := "chat.completion", created := 3,
                choices :=
                  [{ index := some 0,
                     message := { role := "assistant", content := "first" },
                     finish_reason := some "stop" },
                   { index := some 1,
                     message := { role := "assistant", content := "second" },
                     finish_reason := some "stop" }] })) =
      some { role := "assistant", content := "first" } ∧
    (Gui.ChatApp.update Gui.awaitingApp
        [{ role := "assistant", content := "first" }]
        { typedInput := none, sendClicked := false, now := 42 }).app.conversation
      = Gui.awaitingApp.conversation ++
        [{ role := "assistant", content := "first", timestamp := 42 }] ∧
    Cli.iteration [] "hello" (.resp 200 (.ok "raw")
        (some { id := "gen-3", object := "chat.completion", created := 3,
                choices :=
                  [{ index := some 0,
                     message := { role := "assistant", content := "first" },
                     finish_reason := some "stop" },
                   { index := some 1,
                     message := { role := "assistant", content := "second" },
                     finish_reason := some "stop" }] })) =
      .ok [{ role := "user", content := "hello" },
           { role := "assistant", content := "first" }] := by
  have h := @c6_first_choice_only 200 "raw"
    { id := "gen-3", object := "chat.completion", created := 3,
      choices :=
        [{ index := some 0,
           message := { role := "assistant", content := "first" },
           finish_reason := some "stop" },
         { index := some 1,
           message := { role := "assistant", content := "second" },
           finish_reason := some "stop" }] }
    { index := some 0,
      message := { role := "assistant", content := "first" },
      finish_reason := some "stop" }
    [{ index := some 1,
       message := { role := "assistant", content := "second" },
       finish_reason := some "stop" }]
    rfl rfl
  exact ⟨h.1, h.2.2.1 Gui.awaitingApp
    { typedInput := none, sendClicked := false, now := 42 } rfl,
    by rw [h.2.2.2 [] "hello"]; rfl⟩

/-- C7: a dispatch execution given a success-status response whose decoded
`choices` sequence is empty produces no Message: nothing is pushed onto the
relay in the GUI variant, and the CLI variant appends no assistant message
(only the already-appended user message remains). -/
theorem c7_empty_choices {status : Nat} {text : String}
    {resp : OpenRouterChatResponse}
    (hst : statusIsSuccess status = true) (hc : resp.choices = []) :
    Gui.send_request_result (.resp status (some text) (some resp)) = none ∧
    (∀ relay, Gui.send_request_effect relay
        (.resp status (some text) (some resp)) = relay) ∧
    (∀ (conv : List Cli.ChatMessageRequest) (u : String),
      Cli.iteration conv u (.resp status (.ok text) (some resp)) =
        .ok (conv ++ [{ role := "user", content := u }])) := by
  have hres : Gui.send_request_result (.resp status (some text) (some resp))
      = none := by
    simp [Gui.send_request_result, hst, hc]
  refine ⟨hres, fun relay => by simp [Gui.send_request_effect, hres], ?_⟩
  intro conv u
  simp [Cli.iteration, hst, hc]

/-- C7 witness: a concrete 200 response with `choices = []` leaves a concrete
relay untouched and appends nothing after the user message in the CLI. -/
theorem c7_witness :
    Gui.send_request_result
      (.resp 200 (some "raw") (some emptyChoicesResponse)) = none ∧
    Gui.send_request_effect [] (.resp 200 (some "raw")
      (some emptyChoicesResponse)) = [] ∧
    Cli.iteration [] "hello" (.resp 200 (.ok "raw")
        (some emptyChoicesResponse)) =
      .ok [{ role := "user", content := "hello" }] := by
  have h := @c7_empty_choices 200 "raw" emptyChoicesResponse rfl rfl
  exact ⟨h.1, h.2.1 [], by rw [h.2.2 [] "hello"]; rfl⟩

/-- C8: the snapshot handed to a dispatch is an independent copy with value
semantics: the launched dispatch carries exactly the conversation at launch
time, `snapshot` returns the store's contents, and appending to the store
afterwards yields a store one longer while the snapshot value is unchanged
(in particular a later relay-consuming frame grows the store past the
launched snapshot). -/
theorem c8_snapshot_value_semantics {app : Gui.ChatApp} {inp : Gui.TickInput}
    (happ : app.is_typing = false) (hclick : inp.sendClicked = true)
    (htext : (inp.typedInput.getD app.input).trim.isEmpty = false) :
    (Gui.ChatApp.update app [] inp).launched =
      [{ conversation_snapshot := (Gui.ChatApp.update app [] inp).app.conversation,
         model_id := app.current_model }] ∧
    (∀ conv : List Gui.ChatMessageRequest, Gui.Transcript.snapshot conv = conv) ∧
    (∀ (conv : List Gui.ChatMessageRequest) (m : Gui.ChatMessageRequest),
      Gui.Transcript.append conv m = conv ++ [m] ∧
      (Gui.Transcript.append conv m).length =
        (Gui.Transcript.snapshot conv).length + 1) ∧
    (∀ (msg : ChatMessage) (inp2 : Gui.TickInput), inp2.sendClicked = false →
      (Gui.ChatApp.update (Gui.ChatApp.update app [] inp).app [msg]
          inp2).app.conversation.length =
        (Gui.ChatApp.update app [] inp).app.conversation.length + 1) := by
  refine ⟨?_, fun conv => rfl, ?_, ?_⟩
  · rw [Gui.ChatApp.update_send happ hclick htext]
  · intro conv m
    refine ⟨rfl, ?_⟩
    simp [Gui.Transcript.append, Gui.Transcript.snapshot]
  · intro msg inp2 hclick2
    rw [Gui.ChatApp.update_recv hclick2]
    simp

/-- C8 witness: a concrete launch frame followed by a concrete
relay-consuming frame: the launched snapshot equals the two-message store at
launch, and the store afterwards has three messages. -/
theorem c8_witness :
    (Gui.ChatApp.update Gui.sampleApp []
        { typedInput := some "hi", sendClicked := true, now := 5 }).launched =
      [{ conversation_snapshot :=
           (Gui.ChatApp.update Gui.sampleApp []
             { typedInput := some "hi", sendClicked := true,
               now := 5 }).app.conversation,
         model_id := Gui.sampleApp.current_model }] ∧
    Gui.Transcript.snapshot
        (Gui.ChatApp.update Gui.sampleApp []
          { typedInput := some "hi", sendClicked := true,
            now := 5 }).app.conversation =
      (Gui.ChatApp.update Gui.sampleApp []
        { typedInput := some "hi", sendClicked := true,
          now := 5 }).app.conversation ∧
    (Gui.ChatApp.update
        (Gui.ChatApp.update Gui.sampleApp []
          { typedInput := some "hi", sendClicked := true, now := 5 }).app
        [{ role := "assistant", content := "hi there" }]
        { typedInput := none, sendClicked := false,
          now := 6 }).app.conversation.length =
      (Gui.ChatApp.update Gui.sampleApp []
        { typedInput := some "hi", sendClicked := true,
          now := 5 }).app.conversation.length + 1 := by
  have h := @c8_snapshot_value_semantics Gui.sampleApp
    { typedInput := some "hi", sendClicked := true, now := 5 }
    rfl rfl trim_hi_not_empty
  exact ⟨h.1, h.2.1 _,
    h.2.2.2 { role := "assistant", content := "hi there" }
      { typedInput := none, sendClicked := false, now := 6 } rfl⟩

theorem runFrames_head_assistant :
    ∀ (script : List (List ChatMessage × Gui.TickInput)) (app : Gui.ChatApp),
      (∃ m rest, app.conversation = m :: rest ∧ m.role = "assistant") →
      ∃ m rest, (Gui.runFrames app script).conversation = m :: rest ∧
        m.role = "assistant" := by
  intro script
  induction script with
  | nil => intro app h; exact h
  | cons fr rest ih =>
    intro app h
    obtain ⟨m, tl, hconv, hrole⟩ := h
    obtain ⟨arrivals, inp⟩ := fr
    obtain ⟨t, ht⟩ := Gui.ChatApp.update_conversation_extends app arrivals inp
    refine ih (Gui.ChatApp.update app arrivals inp).app ⟨m, tl ++ t, ?_, hrole⟩
    rw [ht, hconv]
    rfl

/-- C9: in the GUI variant the transcript is never empty and its first
message always has role `assistant`: construction pushes one assistant-role
welcome message before any user input, every frame only appends, and hence
every reachable state (any frame script, any relay arrivals) keeps the
assistant-role welcome message first. -/
theorem c9_welcome_first :
    (∀ api_key url : String,
      (Gui.ChatApp.new api_key url).conversation.map (fun m => m.role) =
        ["assistant"]) ∧
    (∀ (app : Gui.ChatApp) (relay : List ChatMessage) (inp : Gui.TickInput),
      ∃ t, (Gui.ChatApp.update app relay inp).app.conversation =
        app.conversation ++ t) ∧
    (∀ (api_key url : String)
        (script : List (List ChatMessage × Gui.TickInput)),
      (Gui.runFrames (Gui.ChatApp.new api_key url) script).conversation ≠ [] ∧
      ((Gui.runFrames (Gui.ChatApp.new api_key url)
          script).conversation.map (fun m => m.role)).head? =
        some "assistant") := by
  refine ⟨fun _ _ => rfl, Gui.ChatApp.update_conversation_extends, ?_⟩
  intro api_key url script
  obtain ⟨m, rest, hconv, hrole⟩ :=
    runFrames_head_assistant script (Gui.ChatApp.new api_key url)
      ⟨{ role := "assistant",
         content := "Hello! I\x27m an AI assistant. How can I help you today?",
         timestamp := 0 }, [], rfl, rfl⟩
  rw [hconv]
  exact ⟨List.cons_ne_nil _ _, by simp [hrole]⟩

/-- C10: for every successful dispatch, the role of the Message appended to
the transcript is the literal string `"assistant"`, regardless of the `role`
field carried by `choices[0].message` in the response body (both variants
hard-code `role: "assistant".to_string()` and ignore the response role). -/
theorem c10_role_hardcoded {status : Nat} {text : String}
    {resp : OpenRouterChatResponse} {c : ChatChoice} {cs : List ChatChoice}
    (hst : statusIsSuccess status = true) :
    (∀ r : String,
      Gui.send_request_result (.resp status (some text)
          (some { resp with choices :=
            { c with message :=
              { role := r, content := c.message.content } } :: cs })) =
        some { role := "assistant", content := c.message.content }) ∧
    (∀ (app : Gui.ChatApp) (inp : Gui.TickInput), inp.sendClicked = false →
      (Gui.ChatApp.update app
          [{ role := "assistant", content := c.message.content }]
          inp).app.conversation.map (fun m => m.role) =
        app.conversation.map (fun m => m.role) ++ ["assistant"]) ∧
    (∀ (conv : List Cli.ChatMessageRequest) (u r : String),
      Cli.iteration conv u (.resp status (.ok text)
          (some { resp with choices :=
            { c with message :=
              { role := r, content := c.message.content } } :: cs })) =
        .ok (conv ++
          [{ role := "user", content := u },
           { role := "assistant", content := c.message.content }])) := by
  refine ⟨?_, ?_, ?_⟩
  · intro r
    exact Gui.ChatApp.send_request_result_success
      (c := { c with message := { role := r, content := c.message.content } })
      hst rfl
  · intro app inp hclick
    rw [Gui.ChatApp.update_recv hclick]
    simp
  · intro conv u r
    exact Cli.iteration_success
      (c := { c with message := { role := r, content := c.message.content } })
      hst rfl

/-- C10 witness: a concrete 200 response whose first choice carries role
`"system"` still yields an `"assistant"`-role message in both variants. -/
theorem c10_witness :
    Gui.send_request_result (.resp 200 (some "raw")
        (some { id := "gen-4", object := "chat.completion", created := 4,
                choices := [{ index := some 0,
                              message := { role := "system",
                                           content := "odd reply" },
                              finish_reason := none }] })) =
      some { role := "assistant", content := "odd reply" } ∧
    Cli.iteration [] "q" (.resp 200 (.ok "raw")
        (some { id := "gen-4", object := "chat.completion", created := 4,
                choices := [{ index := some 0,
                              message := { role := "system",
                                           content := "odd reply" },
                              finish_reason := none }] })) =
      .ok [{ role := "user", content := "q" },
           { role := "assistant", content := "odd reply" }] := by
  have h := @c10_role_hardcoded 200 "raw"
    { id := "gen-4", object := "chat.completion", created := 4,
      choices := [{ index := some 0,
                    message := { role := "whatever",
                                 content := "odd reply" },
                    finish_reason := none }] }
    { index := some 0,
      message := { role := "whatever", content := "odd reply" },
      finish_reason := none }
    [] rfl
  exact ⟨h.1 "system", by rw [h.2.2 [] "q" "system"]; rfl⟩
